import Mathlib

/-!
Verification development for the todo_UDOPROJECT task-tracking backend.

The authentication subsystem (AuthService.validateUser, AuthService.login,
JwtStrategy), the user store (UsersService.create, UsersService.findOne,
UsersService.findByEmail) and the task listing (TaskService.findAll) are
shallowly embedded as pure Lean functions. Databases become explicit lists
of records passed as state; thrown NestJS exceptions become Except values;
JavaScript objects whose properties may be undefined become structures with
Option-valued fields. The bcrypt library and the jsonwebtoken library are
external dependencies, not part of this repository; their behaviour is
modelled from the specification and marked as such in the doc comments.
-/

namespace TodoProject

/-! ### Password hasher (bcrypt), modelled from the spec -/

/-- Modelled from the spec: the digest computed by the bcrypt-class one-way
function from {cost, salt, plaintext}. The bcrypt implementation is an
external library, absent from the repository source, so the digest is
idealized: collision freedom (spec: distinct plaintexts collide only with
overwhelming improbability) becomes exact injectivity, realised by keeping
the inputs as an abstract value with decidable equality. One-wayness is not
used by any claim. -/
structure Digest where
  cost : Nat
  salt : Nat
  text : String
  deriving DecidableEq, Repr

/-- Modelled from the spec: the self-describing hash string produced by
bcrypt, encoding {algorithm, cost, salt, digest}. -/
structure HashString where
  algo : String
  cost : Nat
  salt : Nat
  digest : Digest
  deriving DecidableEq, Repr

/-- Modelled from the spec: the ideal one-way derivation used by the hasher. -/
def idealDigest (cost salt : Nat) (plaintext : String) : Digest :=
  ⟨cost, salt, plaintext⟩

/-- Modelled from the spec: bcrypt.hash — derive a digest from the plaintext
with the given cost factor and salt and return the self-describing encoding. -/
def bcryptHash (cost salt : Nat) (plaintext : String) : HashString :=
  ⟨"2b", cost, salt, idealDigest cost salt plaintext⟩

/-- Modelled from the spec: bcrypt.compare — re-derive the digest using the
cost and salt embedded in the hash string and compare; returns false on
mismatch, never throws. -/
def bcryptVerify (plaintext : String) (h : HashString) : Bool :=
  h.digest == idealDigest h.cost h.salt plaintext

/-- Modelled from the spec: bcrypt.genSalt — fresh random salt generation is
idealized as a never-repeating supply of salts, passed as explicit state:
each call returns the next salt and the advanced supply. -/
def genSalt (supply : Nat) : Nat × Nat :=
  (supply, supply + 1)

/-! ### Credential store (UsersService over a list-of-records database) -/

/-- A row of the users table (entity User): id, fullName, unique email,
bcrypt-hashed password, timestamps. -/
structure StoredUser where
  id : String
  fullName : String
  email : String
  password : HashString
  createdAt : Nat
  updatedAt : Nat
  deriving DecidableEq, Repr

/-- Body of POST /users (CreateUserDto): fullName, email, password. -/
structure CreateUserDto where
  fullName : String
  email : String
  password : String
  deriving DecidableEq, Repr

/-- NestJS exceptions thrown by UsersService: ConflictException from create,
NotFoundException from findOne. -/
inductive UsersError where
  | conflict
  | notFound
  deriving DecidableEq, Repr

/-- Result of UsersService.create: the thrown-or-returned outcome, the store
after the call, and the advanced salt supply. -/
structure CreateResult where
  result : Except UsersError StoredUser
  store : List StoredUser
  saltSupply : Nat
  deriving Repr

/-- UsersService.create: look the email up; if a record exists, throw
ConflictException and leave the store untouched; otherwise hash the password
with a fresh salt at cost factor 10 and save the new record. The
database-generated id and the timestamp are passed as parameters. -/
def create (db : List StoredUser) (dto : CreateUserDto) (newId : String)
    (now supply : Nat) : CreateResult :=
  match db.find? (fun u => u.email == dto.email) with
  | some _ => ⟨.error .conflict, db, supply⟩
  | none =>
    let s := genSalt supply
    let hashedPassword := bcryptHash 10 s.1 dto.password
    let user : StoredUser := ⟨newId, dto.fullName, dto.email, hashedPassword, now, now⟩
    ⟨.ok user, db ++ [user], s.2⟩

/-- The view selected by UsersService.findOne:
['id', 'email', 'fullName', 'createdAt', 'updatedAt'] — no password field. -/
structure UserView where
  id : String
  email : String
  fullName : String
  createdAt : Nat
  updatedAt : Nat
  deriving DecidableEq, Repr

/-- UsersService.findOne: select the password-free view of the record with
the given id, throwing NotFoundException when no record matches. -/
def usersFindOne (db : List StoredUser) (id : String) : Except UsersError UserView :=
  match db.find? (fun u => u.id == id) with
  | none => .error .notFound
  | some u => .ok ⟨u.id, u.email, u.fullName, u.createdAt, u.updatedAt⟩

/-- Modelled from the spec: findById(id) returns UserRecord or none, password
hash excluded. This definition follows the words of the spec and is compared
against usersFindOne, the definition taken from the source. -/
def findByIdSpecModel (db : List StoredUser) (id : String) : Option UserView :=
  (db.find? (fun u => u.id == id)).map
    (fun u => ⟨u.id, u.email, u.fullName, u.createdAt, u.updatedAt⟩)

/-- The view selected by UsersService.findByEmail:
['id', 'email', 'password', 'fullName', 'createdAt'] — password included
because the login flow needs it. -/
structure FoundUser where
  id : String
  email : String
  password : HashString
  fullName : String
  createdAt : Nat
  deriving DecidableEq, Repr

/-- UsersService.findByEmail: the first record with the given email projected
to the selected columns, or none. -/
def findByEmail (db : List StoredUser) (email : String) : Option FoundUser :=
  (db.find? (fun u => u.email == email)).map
    (fun u => ⟨u.id, u.email, u.password, u.fullName, u.createdAt⟩)

/-! ### AuthService.validateUser -/

/-- The object returned by a successful validateUser: the found record with
the password removed by destructuring. -/
structure ValidatedUser where
  id : String
  email : String
  fullName : String
  createdAt : Nat
  deriving DecidableEq, Repr

/-- The destructuring in validateUser: separate password from the rest. -/
def stripPassword (u : FoundUser) : ValidatedUser :=
  ⟨u.id, u.email, u.fullName, u.createdAt⟩

/-- AuthService.validateUser: look the user up by email; when the record
exists and bcrypt.compare accepts the password against the stored hash,
return the record without the password; otherwise return null. -/
def validateUser (db : List StoredUser) (email password : String) :
    Option ValidatedUser :=
  match findByEmail db email with
  | some user =>
    if bcryptVerify password user.password then some (stripPassword user) else none
  | none => none

/-! ### Theorems for the hasher and credential validation -/

/-- C6: password hashing round-trip — verifying a plaintext against its own
hash succeeds, and verifying a different plaintext against that hash fails. -/
theorem bcrypt_roundtrip_and_mismatch (c s : Nat) (p1 p2 : String) (h : p1 ≠ p2) :
    bcryptVerify p1 (bcryptHash c s p1) = true ∧
    bcryptVerify p2 (bcryptHash c s p1) = false := by
  refine ⟨by simp [bcryptVerify, bcryptHash], ?_⟩
  simp only [bcryptVerify, bcryptHash, idealDigest, beq_eq_false_iff_ne, ne_eq,
    Digest.mk.injEq]
  intro hcontra
  exact h hcontra.2.2

/-- Witness for C6 at the concrete plaintexts from the spec scenarios. -/
theorem bcrypt_roundtrip_and_mismatch_witness :
    ("secret1" : String) ≠ "secret2" ∧
    (bcryptVerify "secret1" (bcryptHash 10 0 "secret1") = true ∧
      bcryptVerify "secret2" (bcryptHash 10 0 "secret1") = false) :=
  ⟨by decide, bcrypt_roundtrip_and_mismatch 10 0 "secret1" "secret2" (by decide)⟩

/-- C7: two hash calls on the same plaintext, each drawing a fresh salt from
the supply, produce unequal hash strings. -/
theorem bcryptHash_fresh_salts_ne (c supply : Nat) (p : String) :
    bcryptHash c (genSalt supply).1 p ≠
      bcryptHash c (genSalt (genSalt supply).2).1 p := by
  simp only [bcryptHash, genSalt, ne_eq, HashString.mk.injEq, idealDigest,
    Digest.mk.injEq]
  intro hcontra
  omega

/-- C1: validateUser returns the stripped record exactly when the email has a
record and bcrypt verification succeeds; both failure causes (absent record,
hash mismatch) yield the same result, none. -/
theorem validateUser_characterization (db : List StoredUser) (email password : String) :
    (∀ r, validateUser db email password = some r ↔
      ∃ u, findByEmail db email = some u ∧
        bcryptVerify password u.password = true ∧ r = stripPassword u) ∧
    (findByEmail db email = none → validateUser db email password = none) ∧
    (∀ u, findByEmail db email = some u → bcryptVerify password u.password = false →
      validateUser db email password = none) := by
  unfold validateUser
  refine ⟨fun r => ?_, fun hnone => ?_, fun u hu hv => ?_⟩
  · cases hfind : findByEmail db email with
    | none =>
      simp only [hfind]
      constructor
      · intro hcontra; exact absurd hcontra (by simp)
      · rintro ⟨u, hu, -, -⟩; exact absurd hu (by simp)
    | some u =>
      simp only [hfind]
      by_cases hv : bcryptVerify password u.password = true
      · simp only [hv, if_true, Option.some.injEq]
        constructor
        · intro hr; exact ⟨u, rfl, hv, hr.symm⟩
        · rintro ⟨u2, hu2, -, hr⟩
          cases hu2; exact hr.symm
      · simp only [Bool.not_eq_true] at hv
        simp only [hv, Bool.false_eq_true, if_false]
        constructor
        · intro hcontra; exact absurd hcontra (by simp)
        · rintro ⟨u2, hu2, hv2, -⟩
          cases hu2
          rw [hv] at hv2
          exact absurd hv2 (by simp)
  · simp [hnone]
  · simp [hu, hv]

/-- Witness for C1: on the empty store the lookup misses, so validateUser
returns none. -/
theorem validateUser_characterization_witness :
    findByEmail [] "ana@x.com" = none ∧
    validateUser [] "ana@x.com" "secret1" = none :=
  ⟨rfl, (validateUser_characterization [] "ana@x.com" "secret1").2.1 rfl⟩

/-! ### Token issuer and verifier (jsonwebtoken via @nestjs/jwt and
passport-jwt), modelled from the spec where the library is external -/

/-- The JWT claim payload as signed by AuthService.login: the {email, sub}
object built from the user, plus the issued-at and expires-at stamps the
library adds. The email and sub slots are Option-valued because the source
builds the payload from a dynamically typed object whose properties may be
undefined. -/
structure Payload where
  email : Option String
  sub : Option String
  iat : Nat
  exp : Nat
  deriving DecidableEq, Repr

/-- Modelled from the spec: the symmetric MAC over the payload, signed with
the process-wide secret. The external HMAC is idealized as perfectly
unforgeable: two tags are equal exactly when key and message are equal, so a
tag is modelled as the (key, message) pair itself. -/
structure MacTag where
  key : String
  msg : Payload
  deriving DecidableEq, Repr

/-- Modelled from the spec: computing the MAC tag with the signing secret. -/
def macSig (secret : String) (p : Payload) : MacTag :=
  ⟨secret, p⟩

/-- A decoded token: the three-part compact format carries the payload and
the signature segment (the algorithm header is fixed and elided). -/
structure TokenParts where
  payload : Payload
  sig : MacTag
  deriving DecidableEq, Repr

/-- Modelled from the spec: jwtService.sign — serialize the claims with
issued-at = now and expires-at = now + TTL and sign with the secret. -/
def signToken (secret : String) (now ttl : Nat) (email sub : Option String) :
    TokenParts :=
  let p : Payload := ⟨email, sub, now, now + ttl⟩
  ⟨p, macSig secret p⟩

/-- A wire token as presented in the Authorization header: it either decodes
into token parts or is malformed. -/
inductive Wire where
  | malformed
  | tok (t : TokenParts)
  deriving DecidableEq, Repr

/-- The verification failure surfaced by the token verifier. -/
inductive TokenError where
  | invalidToken
  deriving DecidableEq, Repr

/-- Modelled from the spec: token verification as configured by JwtStrategy
(secretOrKey = the configured secret, ignoreExpiration = false): decode,
check the signature against the secret, check now is not past expires-at;
fail with InvalidToken if malformed, signature-mismatched, or expired. -/
def verifyToken (secret : String) (now : Nat) (w : Wire) :
    Except TokenError Payload :=
  match w with
  | .malformed => .error .invalidToken
  | .tok t =>
    if t.sig = macSig secret t.payload then
      if now ≤ t.payload.exp then .ok t.payload
      else .error .invalidToken
    else .error .invalidToken

/-- The identity attached to the request context by the Authorization Gate. -/
structure Identity where
  userId : Option String
  email : Option String
  deriving DecidableEq, Repr

/-- JwtStrategy.validate: map the verified payload to the request identity
{userId = payload.sub, email = payload.email}. -/
def jwtValidate (payload : Payload) : Identity :=
  ⟨payload.sub, payload.email⟩

/-- The Authorization Gate (JwtAuthGuard with JwtStrategy): extract the
bearer token from the Authorization header (missing header rejects), verify
it, and on success attach the identity from JwtStrategy.validate; any
verification failure rejects with 401 before any handler runs. -/
def jwtGate (secret : String) (now : Nat) (authHeader : Option Wire) :
    Option Identity :=
  match authHeader with
  | none => none
  | some w =>
    match verifyToken secret now w with
    | .error _ => none
    | .ok payload => some (jwtValidate payload)

/-! ### AuthService.login -/

/-- A JavaScript identity object as AuthService.login receives it (the
parameter is typed any in the source): reading a missing property yields
undefined, modelled as none. The createdAt slot is the extra field carried
by the object validateUser produces. -/
structure JsIdent where
  id : Option String
  email : Option String
  fullName : Option String
  createdAt : Option Nat
  deriving DecidableEq, Repr

/-- The user object literal in the login response: exactly the keys
id, email, fullName. -/
structure ProfileView where
  id : Option String
  email : Option String
  fullName : Option String
  deriving DecidableEq, Repr

/-- The login response object literal: exactly the keys access_token, user. -/
structure LoginResult where
  access_token : TokenParts
  user : ProfileView
  deriving DecidableEq, Repr

/-- The runtime error a JavaScript property access can raise. -/
inductive JsError where
  | typeError
  deriving DecidableEq, Repr

/-- AuthService.login: build the payload {email: user.email, sub: user.id},
sign it, and return {access_token, user: {id, email, fullName}}. Property
access throws TypeError only when the identity itself is null or undefined;
an object merely missing a property yields undefined in that slot. -/
def login (secret : String) (now ttl : Nat) (user : Option JsIdent) :
    Except JsError LoginResult :=
  match user with
  | none => .error .typeError
  | some u =>
    .ok ⟨signToken secret now ttl u.email u.id, ⟨u.id, u.email, u.fullName⟩⟩

/-- The view of a validated user as the JavaScript object passed to login. -/
def ValidatedUser.toJs (u : ValidatedUser) : JsIdent :=
  ⟨some u.id, some u.email, some u.fullName, some u.createdAt⟩

/-- A claim set as the spec states the round-trip property: subject and
email, both present. -/
structure Claims where
  subject : String
  email : String
  deriving DecidableEq, Repr

/-! ### Theorems for the token flow -/

/-- C2: token round-trip — verifying, at any time inside the TTL window, a
token issued from the claim set {subject, email} yields the issued payload,
and the Authorization Gate attaches an identity whose userId equals the
issued subject and whose email equals the issued email. -/
theorem token_roundtrip (c : Claims) (secret : String) (now ttl nowV : Nat)
    (h : nowV ≤ now + ttl) :
    verifyToken secret nowV
        (.tok (signToken secret now ttl (some c.email) (some c.subject))) =
      .ok ⟨some c.email, some c.subject, now, now + ttl⟩ ∧
    jwtGate secret nowV
        (some (.tok (signToken secret now ttl (some c.email) (some c.subject)))) =
      some ⟨some c.subject, some c.email⟩ := by
  have hv : verifyToken secret nowV
      (.tok (signToken secret now ttl (some c.email) (some c.subject))) =
      .ok ⟨some c.email, some c.subject, now, now + ttl⟩ := by
    simp [verifyToken, signToken, macSig, h]
  exact ⟨hv, by simp [jwtGate, hv, jwtValidate]⟩

/-- Witness for C2 at a concrete claim set, issue time 0, TTL 24,
verification time 10. -/
theorem token_roundtrip_witness :
    (10 : Nat) ≤ 0 + 24 ∧
    (verifyToken "s" 10
        (.tok (signToken "s" 0 24 (some "ana@x.com") (some "u1"))) =
      .ok ⟨some "ana@x.com", some "u1", 0, 0 + 24⟩ ∧
    jwtGate "s" 10
        (some (.tok (signToken "s" 0 24 (some "ana@x.com") (some "u1")))) =
      some ⟨some "u1", some "ana@x.com"⟩) :=
  ⟨by decide, token_roundtrip ⟨"u1", "ana@x.com"⟩ "s" 0 24 10 (by decide)⟩

/-- C3: verification fails with InvalidToken for every malformed token,
every token whose signature does not match the configured secret, and every
token whose expires-at lies before the verification time; any such failure
makes the Authorization Gate reject. -/
theorem verifyToken_failures (secret : String) (now : Nat) (w : Wire)
    (h : w = .malformed ∨
      (∃ t, w = .tok t ∧ t.sig ≠ macSig secret t.payload) ∨
      (∃ t, w = .tok t ∧ t.payload.exp < now)) :
    verifyToken secret now w = .error .invalidToken ∧
    jwtGate secret now (some w) = none := by
  have hv : verifyToken secret now w = .error .invalidToken := by
    rcases h with h | ⟨t, rfl, hsig⟩ | ⟨t, rfl, hexp⟩
    · rw [h]; rfl
    · simp [verifyToken, hsig]
    · by_cases hsig : t.sig = macSig secret t.payload
      · simp [verifyToken, hsig, Nat.not_le.mpr hexp]
      · simp [verifyToken, hsig]
  exact ⟨hv, by simp [jwtGate, hv]⟩

/-- Witness for C3: a token issued with TTL = 0 at time 0, verified at
time 1, is expired and rejected at the gate. -/
theorem verifyToken_failures_witness :
    ((Wire.tok (signToken "s" 0 0 (some "ana@x.com") (some "u1"))) = .malformed ∨
      (∃ t, Wire.tok (signToken "s" 0 0 (some "ana@x.com") (some "u1")) = .tok t ∧
        t.sig ≠ macSig "s" t.payload) ∨
      (∃ t, Wire.tok (signToken "s" 0 0 (some "ana@x.com") (some "u1")) = .tok t ∧
        t.payload.exp < 1)) ∧
    (verifyToken "s" 1 (.tok (signToken "s" 0 0 (some "ana@x.com") (some "u1"))) =
        .error .invalidToken ∧
      jwtGate "s" 1 (some (.tok (signToken "s" 0 0 (some "ana@x.com") (some "u1")))) =
        none) :=
  ⟨Or.inr (Or.inr ⟨signToken "s" 0 0 (some "ana@x.com") (some "u1"), rfl, by decide⟩),
    verifyToken_failures "s" 1 _
      (Or.inr (Or.inr ⟨signToken "s" 0 0 (some "ana@x.com") (some "u1"), rfl, by decide⟩))⟩

/-- C4: the login response consists of exactly an access token and the
profile {id, email, fullName}; the response depends only on those three
fields of the identity (in particular not on createdAt), and for an identity
produced by validateUser the password hash was already stripped, so it
appears nowhere in the response. -/
theorem login_response_shape (secret : String) (now ttl : Nat) (u v : JsIdent)
    (hid : u.id = v.id) (hem : u.email = v.email) (hfn : u.fullName = v.fullName) :
    login secret now ttl (some u) =
      .ok ⟨signToken secret now ttl u.email u.id, ⟨u.id, u.email, u.fullName⟩⟩ ∧
    login secret now ttl (some u) = login secret now ttl (some v) ∧
    (∀ db email password w, validateUser db email password = some w →
      login secret now ttl (some w.toJs) =
        .ok ⟨signToken secret now ttl (some w.email) (some w.id),
          ⟨some w.id, some w.email, some w.fullName⟩⟩) := by
  refine ⟨rfl, ?_, fun db email password w _ => rfl⟩
  simp [login, hid, hem, hfn]

/-- Witness for C4: two identities equal up to createdAt produce the same
response, of the stated shape. -/
theorem login_response_shape_witness :
    ((⟨some "u1", some "ana@x.com", some "Ana Ruiz", some 5⟩ : JsIdent).id =
        (⟨some "u1", some "ana@x.com", some "Ana Ruiz", some 9⟩ : JsIdent).id) ∧
    login "s" 0 24 (some ⟨some "u1", some "ana@x.com", some "Ana Ruiz", some 5⟩) =
      login "s" 0 24 (some ⟨some "u1", some "ana@x.com", some "Ana Ruiz", some 9⟩) :=
  ⟨rfl, (login_response_shape "s" 0 24
    ⟨some "u1", some "ana@x.com", some "Ana Ruiz", some 5⟩
    ⟨some "u1", some "ana@x.com", some "Ana Ruiz", some 9⟩ rfl rfl rfl).2.1⟩

/-- C5 counterexample: invoked with an identity missing the id, login does
not fail fast — it returns a normal response whose missing slots are
undefined, so a token and profile are produced for such an identity. -/
theorem login_missing_id_counterexample :
    login "s" 0 24 (some ⟨none, some "ana@x.com", some "Ana Ruiz", none⟩) =
      .ok ⟨signToken "s" 0 24 (some "ana@x.com") none,
        ⟨none, some "ana@x.com", some "Ana Ruiz"⟩⟩ :=
  rfl

/-- C5 amended: login performs no shape check — for every identity object,
including one missing id or email, it returns a normal result built from the
available fields; it fails fast (TypeError on property access) only when the
identity itself is null or undefined. -/
theorem login_no_shape_check (secret : String) (now ttl : Nat) (u : JsIdent) :
    (∃ r, login secret now ttl (some u) = .ok r) ∧
    login secret now ttl none = .error .typeError :=
  ⟨⟨_, rfl⟩, rfl⟩

/-! ### Theorems for the user store -/

/-- The email uniqueness invariant of the users table: at most one record
per email. -/
def EmailsUnique (db : List StoredUser) : Prop :=
  db.Pairwise (fun a b => a.email ≠ b.email)

/-- C8: when a record with the requested email already exists, create throws
ConflictException and leaves the store unchanged; and create preserves the
email uniqueness invariant, so at most one record per email ever exists. -/
theorem create_conflict_and_uniqueness (db : List StoredUser)
    (dto : CreateUserDto) (newId : String) (now supply : Nat) :
    ((∃ u ∈ db, u.email = dto.email) →
      (create db dto newId now supply).result = .error .conflict ∧
      (create db dto newId now supply).store = db) ∧
    (EmailsUnique db → EmailsUnique (create db dto newId now supply).store) := by
  cases hfind : db.find? (fun u => u.email == dto.email) with
  | some u =>
    refine ⟨fun _ => ?_, fun huniq => ?_⟩
    · simp [create, hfind]
    · simpa [create, hfind] using huniq
  | none =>
    have habsent : ∀ u ∈ db, u.email ≠ dto.email := by
      intro u hu
      have := List.find?_eq_none.mp hfind u hu
      simpa using this
    refine ⟨fun ⟨u, hu, he⟩ => absurd he (habsent u hu), fun huniq => ?_⟩
    simp only [create, hfind, EmailsUnique]
    rw [List.pairwise_append]
    exact ⟨huniq, List.pairwise_singleton _ _,
      fun a ha b hb => by
        have hb2 : b = ⟨newId, dto.fullName, dto.email,
            bcryptHash 10 (genSalt supply).1 dto.password, now, now⟩ := by
          simpa using hb
        rw [hb2]
        exact habsent a ha⟩

/-- Witness for C8: a one-record store and a request reusing its email — the
creation conflicts, the store is unchanged, and uniqueness is preserved. -/
theorem create_conflict_and_uniqueness_witness :
    (∃ u ∈ [(⟨"u1", "Ana Ruiz", "ana@x.com", bcryptHash 10 0 "secret1", 0, 0⟩ :
        StoredUser)], u.email = "ana@x.com") ∧
    ((create [⟨"u1", "Ana Ruiz", "ana@x.com", bcryptHash 10 0 "secret1", 0, 0⟩]
        ⟨"Eva", "ana@x.com", "secret2"⟩ "u2" 1 1).result = .error .conflict ∧
      (create [⟨"u1", "Ana Ruiz", "ana@x.com", bcryptHash 10 0 "secret1", 0, 0⟩]
        ⟨"Eva", "ana@x.com", "secret2"⟩ "u2" 1 1).store =
        [⟨"u1", "Ana Ruiz", "ana@x.com", bcryptHash 10 0 "secret1", 0, 0⟩]) :=
  ⟨⟨⟨"u1", "Ana Ruiz", "ana@x.com", bcryptHash 10 0 "secret1", 0, 0⟩,
      List.mem_singleton.mpr rfl, rfl⟩,
    (create_conflict_and_uniqueness
      [⟨"u1", "Ana Ruiz", "ana@x.com", bcryptHash 10 0 "secret1", 0, 0⟩]
      ⟨"Eva", "ana@x.com", "secret2"⟩ "u2" 1 1).1
      ⟨⟨"u1", "Ana Ruiz", "ana@x.com", bcryptHash 10 0 "secret1", 0, 0⟩,
        List.mem_singleton.mpr rfl, rfl⟩⟩

/-- C9 counterexample: on the empty store, findById does not return none —
it throws NotFoundException, while the spec-modelled contract returns none
at the same input. -/
theorem usersFindOne_none_counterexample :
    usersFindOne [] "u1" = .error .notFound ∧
    findByIdSpecModel [] "u1" = none :=
  ⟨rfl, rfl⟩

/-- C9 amended: findById returns the matching record with the password hash
excluded when a record with that id exists, and when none exists it does not
return none but fails with NotFoundException; on found records it agrees
with the spec-modelled contract. -/
theorem usersFindOne_refines_spec (db : List StoredUser) (id : String) :
    (∀ v, usersFindOne db id = .ok v ↔ findByIdSpecModel db id = some v) ∧
    (usersFindOne db id = .error .notFound ↔ findByIdSpecModel db id = none) := by
  unfold usersFindOne findByIdSpecModel
  cases db.find? (fun u => u.id == id) <;> simp

/-! ### Task listing (TaskService.findAll) -/

/-- Enum TaskStatus from the task entity. -/
inductive TaskStatus where
  | PENDING
  | IN_PROGRESS
  | DONE
  deriving DecidableEq, Repr

/-- A row of the tasks table, restricted to the columns findAll consults:
status, the category and assignee foreign keys (nullable), and createdAt.
The left joins in findAll only populate the many-to-one relation objects of
each row and do not change the row set, so they are elided. -/
structure Task where
  id : String
  status : TaskStatus
  category_id : Option String
  assigned_to : Option String
  createdAt : Nat
  deriving DecidableEq, Repr

/-- Query parameters of GET /task (GetTasksDto): optional status, category,
assignee filters and optional limit and offset. -/
structure GetTasksDto where
  status : Option TaskStatus
  category_id : Option String
  assigned_to : Option String
  limit : Option Nat
  offset : Option Nat
  deriving DecidableEq, Repr

/-- The class-validator constraints on GetTasksDto that concern findAll:
limit, when provided, is an integer of at least 1 (offset at least 0 holds
by the Nat type). -/
def GetTasksDto.valid (dto : GetTasksDto) : Prop :=
  ∀ l, dto.limit = some l → 1 ≤ l

/-- The conjunction of the three andWhere filters of findAll: a task passes
when it matches every provided filter. -/
def taskMatches (dto : GetTasksDto) (t : Task) : Bool :=
  (match dto.status with
    | some s => t.status == s
    | none => true) &&
  (match dto.category_id with
    | some c => t.category_id == some c
    | none => true) &&
  (match dto.assigned_to with
    | some a => t.assigned_to == some a
    | none => true)

/-- The JavaScript expression getTasksDto.limit || 10: undefined and 0 are
both falsy, so both fall back to the default 10. -/
def limitOrDefault (l : Option Nat) : Nat :=
  match l with
  | some l => if l = 0 then 10 else l
  | none => 10

/-- The JavaScript expression getTasksDto.offset || 0: undefined falls back
to 0, and the falsy value 0 also yields 0, so this is just the default. -/
def offsetOrDefault (o : Option Nat) : Nat :=
  o.getD 0

/-- The descending creation-date order of the ORDER BY clause. -/
def createdAtDesc (a b : Task) : Prop :=
  b.createdAt ≤ a.createdAt

instance : DecidableRel createdAtDesc :=
  fun a b => Nat.decLe b.createdAt a.createdAt

instance : IsTotal Task createdAtDesc :=
  ⟨fun a b => Nat.le_total b.createdAt a.createdAt⟩

instance : IsTrans Task createdAtDesc :=
  ⟨fun _ _ _ hab hbc => Nat.le_trans hbc hab⟩

/-- The result shape of findAll. -/
structure FindAllResult where
  tasks : List Task
  total : Nat
  deriving DecidableEq, Repr

/-- TaskService.findAll as the relational semantics of the SQL query it
builds: the andWhere filters are conjoined; getCount runs before skip and
take are attached, so the total counts every matching row; the final query
orders by createdAt descending and applies OFFSET and LIMIT after ordering. -/
def findAll (dto : GetTasksDto) (db : List Task) : FindAllResult :=
  let matching := db.filter (taskMatches dto)
  let total := matching.length
  let limit := limitOrDefault dto.limit
  let offset := offsetOrDefault dto.offset
  let tasks := ((List.insertionSort createdAtDesc matching).drop offset).take limit
  ⟨tasks, total⟩

/-- C10: for every valid task-listing query, total counts exactly the rows
matching the filters, independently of limit and offset; the returned page
is the ordered matching rows after skipping offset entries, holds at most
limit entries (default 10), contains only rows matching every provided
filter, and is ordered by creation date descending. -/
theorem findAll_pagination_spec (dto : GetTasksDto) (db : List Task)
    (hval : dto.valid) :
    (findAll dto db).total = (db.filter (taskMatches dto)).length ∧
    (∀ l o, (findAll { dto with limit := l, offset := o } db).total =
      (findAll dto db).total) ∧
    (findAll dto db).tasks =
      ((List.insertionSort createdAtDesc (db.filter (taskMatches dto))).drop
        (dto.offset.getD 0)).take (dto.limit.getD 10) ∧
    (findAll dto db).tasks.length ≤ dto.limit.getD 10 ∧
    (∀ t ∈ (findAll dto db).tasks, taskMatches dto t = true) ∧
    (findAll dto db).tasks.Pairwise createdAtDesc := by
  have hlimit : limitOrDefault dto.limit = dto.limit.getD 10 := by
    cases hcase : dto.limit with
    | none => rfl
    | some l =>
      have hpos := hval l hcase
      simp [limitOrDefault, Option.getD]
      omega
  refine ⟨rfl, fun l o => rfl, ?_, ?_, ?_, ?_⟩
  · simp [findAll, hlimit, offsetOrDefault]
  · calc (findAll dto db).tasks.length
        ≤ limitOrDefault dto.limit := by
          simp only [findAll]
          exact List.length_take_le _ _
      _ = dto.limit.getD 10 := hlimit
  · intro t ht
    simp only [findAll] at ht
    have hsorted : t ∈ List.insertionSort createdAtDesc
        (db.filter (taskMatches dto)) :=
      List.mem_of_mem_drop (List.mem_of_mem_take ht)
    have hmem : t ∈ db.filter (taskMatches dto) :=
      (List.perm_insertionSort createdAtDesc _).subset hsorted
    exact (List.mem_filter.mp hmem).2
  · have hsorted : (List.insertionSort createdAtDesc
        (db.filter (taskMatches dto))).Pairwise createdAtDesc :=
      List.sorted_insertionSort createdAtDesc _
    have hsub : (findAll dto db).tasks.Sublist
        (List.insertionSort createdAtDesc (db.filter (taskMatches dto))) := by
      simp only [findAll]
      exact (List.take_sublist _ _).trans (List.drop_sublist _ _)
    exact hsorted.sublist hsub

/-- Witness for C10 at a concrete query (status filter, limit 1, offset 0)
over a two-task store. -/
theorem findAll_pagination_spec_witness :
    (⟨some .PENDING, none, none, some 1, some 0⟩ : GetTasksDto).valid ∧
    ((findAll ⟨some .PENDING, none, none, some 1, some 0⟩
        [⟨"t1", .PENDING, none, none, 3⟩, ⟨"t2", .PENDING, none, none, 7⟩]).total =
      ([⟨"t1", .PENDING, none, none, 3⟩, ⟨"t2", .PENDING, none, none, 7⟩].filter
        (taskMatches ⟨some .PENDING, none, none, some 1, some 0⟩)).length ∧
    (∀ l o, (findAll { (⟨some .PENDING, none, none, some 1, some 0⟩ : GetTasksDto)
          with limit := l, offset := o }
        [⟨"t1", .PENDING, none, none, 3⟩, ⟨"t2", .PENDING, none, none, 7⟩]).total =
      (findAll ⟨some .PENDING, none, none, some 1, some 0⟩
        [⟨"t1", .PENDING, none, none, 3⟩, ⟨"t2", .PENDING, none, none, 7⟩]).total) ∧
    (findAll ⟨some .PENDING, none, none, some 1, some 0⟩
        [⟨"t1", .PENDING, none, none, 3⟩, ⟨"t2", .PENDING, none, none, 7⟩]).tasks =
      ((List.insertionSort createdAtDesc
        ([⟨"t1", .PENDING, none, none, 3⟩, ⟨"t2", .PENDING, none, none, 7⟩].filter
          (taskMatches ⟨some .PENDING, none, none, some 1, some 0⟩))).drop
        ((some 0).getD 0)).take ((some 1).getD 10) ∧
    (findAll ⟨some .PENDING, none, none, some 1, some 0⟩
        [⟨"t1", .PENDING, none, none, 3⟩, ⟨"t2", .PENDING, none, none, 7⟩]).tasks.length ≤
      (some 1).getD 10 ∧
    (∀ t ∈ (findAll ⟨some .PENDING, none, none, some 1, some 0⟩
        [⟨"t1", .PENDING, none, none, 3⟩, ⟨"t2", .PENDING, none, none, 7⟩]).tasks,
      taskMatches ⟨some .PENDING, none, none, some 1, some 0⟩ t = true) ∧
    (findAll ⟨some .PENDING, none, none, some 1, some 0⟩
        [⟨"t1", .PENDING, none, none, 3⟩,
          ⟨"t2", .PENDING, none, none, 7⟩]).tasks.Pairwise createdAtDesc) :=
  ⟨fun l hl => by cases hl; exact Nat.le_refl 1,
    findAll_pagination_spec ⟨some .PENDING, none, none, some 1, some 0⟩
      [⟨"t1", .PENDING, none, none, 3⟩, ⟨"t2", .PENDING, none, none, 7⟩]
      (fun l hl => by cases hl; exact Nat.le_refl 1)⟩

end TodoProject
